import Mathlib

/-!
Verification of the `logutils` package (`src/logutils/api.py`).

The development shallowly embeds the configuration-resolution logic
(`_set_log_defaults`), the handler classification performed by
`init_logging`, the idempotence gate of `init_logging`, the bound-logger
operations (`BetterBoundLogger.bind`, `BetterBoundLogger.bind_fargs`)
and the structlog processor chain built for console output.

External collaborators (structlog, the standard `logging` machinery,
wall-clock time, process/thread identity and call-stack introspection)
are represented by explicit parameters: an `Env` record carries the
formatted timestamps, the PID, the thread name and the result of the
stack walk, so that each processor stays a pure function on event
dictionaries, exactly as the spec describes them.
-/

namespace Logutils

/-- Log format enumeration (`LogFormat = Literal["json", "color", "nocolor"]`). -/
inductive LogFormat where
  | json
  | color
  | nocolor
deriving DecidableEq, Repr

/-- Log level enumeration
(`LogLevel = Literal["TRACE", "DEBUG", "INFO", "WARNING", "ERROR", "CRITICAL"]`). -/
inductive LogLevel where
  | TRACE
  | DEBUG
  | INFO
  | WARNING
  | ERROR
  | CRITICAL
deriving DecidableEq, Repr

/-- The `Log` dataclass: a log sink specification (`api.py`, class `Log`).
`file` may be a path or one of the reserved tokens `stderr` / `stdout`;
`level` is optional and resolved later when absent. -/
structure Log where
  file : String
  format : LogFormat
  level : Option LogLevel
deriving DecidableEq, Repr

/-- The module constant `_DEFAULT_CONSOLE_LOG = Log(file="stderr", format="color")`. -/
def DEFAULT_CONSOLE_LOG : Log := ⟨"stderr", LogFormat.color, none⟩

/-- The pair `(default_console_level, default_file_level)` computed at the top of
`_set_log_defaults` (`api.py` lines 460-469). -/
def logDefaults (verbose : Nat) : LogLevel × LogLevel :=
  if verbose ≥ 3 then (LogLevel.TRACE, LogLevel.TRACE)
  else if verbose ≥ 1 then (LogLevel.DEBUG, LogLevel.DEBUG)
  else (LogLevel.INFO, LogLevel.DEBUG)

/-- The body of the `for log in logs` loop of `_set_log_defaults`
(`api.py` lines 471-488): a sink whose level is already set is passed
through; otherwise the level defaults according to whether the
destination is exactly `"stdout"` or `"stderr"` (case-sensitive test). -/
def resolveLog (default_console_level default_file_level : LogLevel) (log : Log) : Log :=
  match log.level with
  | some _ => log
  | none =>
    let level :=
      if log.file = "stdout" ∨ log.file = "stderr" then default_console_level
      else default_file_level
    ⟨log.file, log.format, some level⟩

/-- Embedding of `_set_log_defaults(logs, verbose)` (`api.py` lines 447-501). -/
def set_log_defaults (logs : List Log) (verbose : Nat) : List Log :=
  let dcl := (logDefaults verbose).1
  let dfl := (logDefaults verbose).2
  let result := logs.map (resolveLog dcl dfl)
  if logs.any (fun log => log.file == "stderr" || log.file == "stdout") then result
  else
    result ++ [⟨DEFAULT_CONSOLE_LOG.file, DEFAULT_CONSOLE_LOG.format, some dcl⟩]

/-- ASCII lowercasing of one character, as Python's `str.lower()` does on
the ASCII range (the only range relevant to the reserved destination
tokens `stderr` / `stdout`). -/
def charToLower (c : Char) : Char :=
  if 65 ≤ c.toNat ∧ c.toNat ≤ 90 then Char.ofNat (c.toNat + 32) else c

/-- Python's `str.lower()` (restricted to its ASCII behaviour). -/
def strToLower (s : String) : String :=
  String.mk (s.data.map charToLower)

/-- The console test used by `init_logging` when building handlers
(`api.py` line 405): `str(log.file).lower() in ["stderr", "stdout"]`.
Unlike the resolver's test, this one is case-insensitive. -/
def isConsoleFile (file : String) : Bool :=
  strToLower file == "stderr" || strToLower file == "stdout"

/-- Handler kinds chosen by `init_logging`: `logging.StreamHandler` for console
destinations, `logging.handlers.WatchedFileHandler` for everything else. -/
inductive HandlerKind where
  | stream
  | watchedFile
deriving DecidableEq, Repr

/-- One entry of `config["handlers"]` as built by the `for log in logs` loop of
`init_logging` (`api.py` lines 399-422). -/
structure Handler where
  name : String
  level : LogLevel
  kind : HandlerKind
  formatter : LogFormat
deriving DecidableEq, Repr

/-- One iteration of the handler-building loop of `init_logging`: the
`assert log.level is not None` (`api.py` line 402) is modelled by returning
`none` (an `AssertionError`) when the level is absent. -/
def buildHandler (log : Log) : Option Handler :=
  match log.level with
  | none => none
  | some lvl =>
    some ⟨log.file, lvl,
      if isConsoleFile log.file then HandlerKind.stream else HandlerKind.watchedFile,
      log.format⟩

/-- The whole handler-building loop of `init_logging` (`api.py` lines 399-422). -/
def buildHandlers : List Log → Option (List Handler)
  | [] => some []
  | log :: rest =>
    match buildHandler log, buildHandlers rest with
    | some h, some hs => some (h :: hs)
    | _, _ => none

/-- The `real_logfiles` list accumulated by `init_logging`
(`api.py` lines 396, 415): destinations that are not console streams. -/
def realLogfiles (logs : List Log) : List String :=
  (logs.filter (fun log => !isConsoleFile log.file)).map Log.file

/-! Python dictionaries.

Python dicts are insertion-ordered maps; we embed them as association
lists whose keys are unique in practice.  `dictSet` is `d[k] = v`
(replace in place, else append), `dictGet` is `d.get(k)`, `dictDel` is
`del d[k]`, and `dictUpdate` is `d.update(other)`. -/

/-- Python `d[k] = v`: replace the first binding of `k` in place, or append. -/
def dictSet {β : Type} : List (String × β) → String → β → List (String × β)
  | [], k, v => [(k, v)]
  | p :: rest, k, v =>
    if p.1 = k then (k, v) :: rest else p :: dictSet rest k v

/-- Python `d.get(k)`. -/
def dictGet {β : Type} : List (String × β) → String → Option β
  | [], _ => none
  | p :: rest, k => if p.1 = k then some p.2 else dictGet rest k

/-- Python `del d[k]` (also used for `if k in d: del d[k]`). -/
def dictDel {β : Type} (d : List (String × β)) (k : String) : List (String × β) :=
  d.filter (fun p => p.1 ≠ k)

/-- Python `d.update(other)`. -/
def dictUpdate {β : Type} (d other : List (String × β)) : List (String × β) :=
  other.foldl (fun acc p => dictSet acc p.1 p.2) d

/-! The bound logger (`BetterBoundLogger`).

A structlog bound logger carries an immutable context dict; `bind`
produces a new logger whose context is the old one updated with the new
values.  Context values are either plain values or — for the `fargs`
key — a jsonified mapping of function arguments. -/

/-- A context value: a plain value, or a mapping bound under `fargs`. -/
inductive CtxVal (α : Type) where
  | val : α → CtxVal α
  | fargsMap : List (String × α) → CtxVal α
deriving DecidableEq

/-- A structlog bound logger handle: its bound context dict. -/
structure BoundLogger (α : Type) where
  context : List (String × CtxVal α)
deriving DecidableEq

/-- The module constant `_RESTRICTED_KEYS` (`api.py` lines 79-88). -/
def RESTRICTED_KEYS : List String :=
  ["event", "fargs", "function", "lineno", "module", "name", "pid", "thread"]

/-- structlog's `BoundLogger.bind`: copy-on-bind update of the context dict. -/
def structlogBind {α : Type} (lg : BoundLogger α)
    (newValues : List (String × CtxVal α)) : BoundLogger α :=
  ⟨dictUpdate lg.context newValues⟩

/-- `BetterBoundLogger.bind` (`api.py` lines 124-133): every restricted key
is warned about (one `logger.warning` call per key, collected here as the
returned list of offending keys, in iteration order) and deleted from
`new_values`; the remaining keys are bound via `super().bind`. -/
def betterBind {α : Type} (lg : BoundLogger α)
    (newValues : List (String × CtxVal α)) : BoundLogger α × List String :=
  let warnings := (newValues.map Prod.fst).filter (fun k => decide (k ∈ RESTRICTED_KEYS))
  let kept := newValues.filter (fun p => decide (p.1 ∉ RESTRICTED_KEYS))
  (structlogBind lg kept, warnings)

/-- `BetterBoundLogger.bind_fargs` (`api.py` lines 135-156): build a dict
from `fargs_map` (empty when `None`), update it with the keyword
arguments, and bind the result under the single key `fargs` via
`super().bind` (bypassing the restricted-key check). -/
def bind_fargs {α : Type} (lg : BoundLogger α)
    (fargs_map : Option (List (String × α))) (kwargs : List (String × α)) :
    BoundLogger α :=
  let fargs := match fargs_map with
    | none => []
    | some m => m
  let fargs := dictUpdate fargs kwargs
  structlogBind lg [("fargs", CtxVal.fargsMap fargs)]

/-! The processor chain.

A structlog processor maps `(logger, method_name, event_dict)` to an
event dict.  The logger argument is never consulted by the processors
modelled here; the ambient machine state they do consult (formatted
timestamps, PID, thread name, the result of the call-stack walk) is
passed explicitly as an `Env`. -/

/-- A value stored in an event dict. -/
inductive Value where
  | str : String → Value
  | nat : Nat → Value
deriving DecidableEq, Repr

/-- An event dict (structlog `EventDict`). -/
def EventDict : Type := List (String × Value)

/-- Result of `inspect.getframeinfo` on the found frame. -/
structure FrameInfo where
  function : String
  lineno : Nat
deriving DecidableEq, Repr

/-- Result of `inspect.getmodule` on the found frame. -/
structure ModuleInfo where
  name : String
deriving DecidableEq, Repr

/-- A stack frame, together with what `getframeinfo` / `getmodule` return
for it (either may fail, yielding `none`). -/
structure Frame where
  frameinfo : Option FrameInfo
  module : Option ModuleInfo
deriving DecidableEq, Repr

/-- The ambient machine state consulted by the processors: the current
local time rendered with `_MEDIUM_FMT` (`%H:%M:%S.%f`), the current UTC
time rendered in ISO format, the PID, the current thread name, and the
first application frame found by `structlog._frames._find_first_app_frame_and_name`
(`none` when the walk finds no qualifying frame). -/
structure Env where
  nowMedium : String
  nowIso : String
  pid : Nat
  threadName : String
  frame : Option Frame

/-- A structlog processor, with the external state made explicit. -/
def Processor : Type := Env → String → EventDict → EventDict

/-- structlog's `structlog.stdlib.add_log_level` (external collaborator):
adds the log level derived from the logging method's name. -/
def add_log_level : Processor :=
  fun _env method_name d => dictSet d "level" (Value.str method_name)

/-- `_add_pid_processor` (`api.py` lines 597-604). -/
def add_pid_processor : Processor :=
  fun env _m d => dictSet d "pid" (Value.nat env.pid)

/-- `_add_thread_processor` (`api.py` lines 607-614). -/
def add_thread_processor : Processor :=
  fun env _m d => dictSet d "thread" (Value.str env.threadName)

/-- `TimeStamper(fmt="iso", utc=True)` as used for the very-verbose chain. -/
def iso_utc_timestamper : Processor :=
  fun env _m d => dictSet d "timestamp" (Value.str env.nowIso)

/-- `TimeStamper(fmt=_MEDIUM_FMT, utc=False)` as used at verbosity 1. -/
def medium_timestamper : Processor :=
  fun env _m d => dictSet d "timestamp" (Value.str env.nowMedium)

/-- `_short_timestamper` (`api.py` lines 528-542): apply the medium
timestamper, then truncate the last three characters of the timestamp
(microseconds become milliseconds). -/
def short_timestamper : Processor :=
  fun env m d =>
    let d := medium_timestamper env m d
    match dictGet d "timestamp" with
    | some (Value.str s) => dictSet d "timestamp" (Value.str (s.dropRight 3))
    | _ => d

/-- `_remove_fargs_processor` (`api.py` lines 582-594). -/
def remove_fargs_processor : Processor :=
  fun _env _m d => dictDel d "fargs"

/-- `_add_caller_info_processor` (`api.py` lines 545-579).  The stack walk
itself (`_find_first_app_frame_and_name`, with its ignore-list tweak based
on the event's `logger` key) is external and represented by its result,
`env.frame`.  If no frame is found, or `getframeinfo` / `getmodule` fail
on it, the event dict is returned unchanged; otherwise the `module`,
`function` and `lineno` keys are added (`lineno` stringified). -/
def add_caller_info_processor : Processor :=
  fun env _m event_dict =>
    match env.frame with
    | none => event_dict
    | some frame =>
      match frame.frameinfo with
      | none => event_dict
      | some frameinfo =>
        match frame.module with
        | none => event_dict
        | some module =>
          let event_dict := dictSet event_dict "module" (Value.str module.name)
          let event_dict := dictSet event_dict "function" (Value.str frameinfo.function)
          dictSet event_dict "lineno" (Value.str (toString frameinfo.lineno))

/-- `shared_processors` (`api.py` line 272). -/
def shared_processors : List Processor := [add_log_level]

/-- `verbose_processors` (`api.py` lines 273-276). -/
def verbose_processors : List Processor := [add_pid_processor, add_thread_processor]

/-- `very_verbose_processors` (`api.py` lines 278-281). -/
def very_verbose_processors : List Processor :=
  [iso_utc_timestamper, add_caller_info_processor]

/-- The console processor list built by `init_logging`
(`api.py` lines 290-303).  Both the `color` and the `nocolor` formatter
are fed this same list. -/
def console_processors (verbose : Nat) : List Processor :=
  if verbose ≥ 2 then
    shared_processors ++ (verbose_processors ++ very_verbose_processors)
  else
    let ps := shared_processors ++ [remove_fargs_processor]
    if verbose = 1 then
      ps ++ (verbose_processors ++ [medium_timestamper])
    else
      ps ++ [short_timestamper]

/-- `_chain_processors` (`api.py` lines 504-525) up to, and not
including, the final renderer: left-to-right application of the
pre-processors.  The event dict this produces is exactly what the
renderer is handed. -/
def chain_processors (pre : List Processor) : Processor :=
  fun env m event_dict =>
    pre.foldl (fun acc proc => proc env m acc) event_dict

/-! The idempotence gate of `init_logging`. -/

/-- The argument set of one `init_logging(logs=…, verbose=…)` call — the
`func_args = locals()` snapshot taken at `api.py` line 263, before `logs`
is rebound to the resolver's output. -/
structure InitArgs where
  logs : List Log
  verbose : Nat
deriving DecidableEq, Repr

/-- The process-wide mutable state read and written by `init_logging`:
the `_LOGGING_CONFIGURATION` memo (`none` for the initial empty dict) and
whether `structlog.is_configured()` reports true. -/
structure LoggingState where
  loggingConfiguration : Option InitArgs
  structlogConfigured : Bool
deriving DecidableEq, Repr

/-- An observable side effect of `init_logging`: registering the handler
map with `logging.config.dictConfig` (`api.py` line 424), or emitting the
`"Logging to files."` informational line (`api.py` line 430). -/
inductive Effect where
  | handlerSetup : List Handler → Effect
  | infoLogFiles : List String → Effect
deriving DecidableEq, Repr

/-- Recognizer for the handler-setup effect. -/
def Effect.isHandlerSetup : Effect → Bool
  | Effect.handlerSetup _ => true
  | _ => false

/-- Recognizer for the `"Logging to files."` effect. -/
def Effect.isInfoLogFiles : Effect → Bool
  | Effect.infoLogFiles _ => true
  | _ => false

/-- `init_logging` (`api.py` lines 221-430) as a state transformer, keeping
just what the claims need: the guard
`if _LOGGING_CONFIGURATION == func_args and structlog.is_configured(): return`
(lines 264-265), the memo update and reconfiguration (lines 267-268, 387-393),
sink resolution (line 270), the handler-building loop with its
`assert log.level is not None` (modelled as `none` on failure), and the
final informational log line for real logfiles (lines 426-430). -/
def init_logging (s : LoggingState) (args : InitArgs) :
    Option (LoggingState × List Effect) :=
  if s.loggingConfiguration = some args ∧ s.structlogConfigured then
    some (s, [])
  else
    let logs := set_log_defaults args.logs args.verbose
    match buildHandlers logs with
    | none => none
    | some handlers =>
      let files := realLogfiles logs
      some (⟨some args, true⟩,
        Effect.handlerSetup handlers ::
          (if files = [] then [] else [Effect.infoLogFiles files]))

/-! Basic lemmas about the dict operations. -/

theorem dictGet_dictSet_self {β : Type} (d : List (String × β)) (k : String) (v : β) :
    dictGet (dictSet d k v) k = some v := by
  induction d with
  | nil => simp [dictSet, dictGet]
  | cons p rest ih =>
    by_cases h : p.1 = k <;> simp [dictSet, dictGet, h, ih]

theorem dictGet_dictSet_ne {β : Type} (d : List (String × β)) {k k' : String} (v : β)
    (h : k' ≠ k) : dictGet (dictSet d k v) k' = dictGet d k' := by
  have h' : ¬(k = k') := fun e => h e.symm
  induction d with
  | nil => simp [dictSet, dictGet, h']
  | cons p rest ih =>
    by_cases hp : p.1 = k
    · subst hp
      simp [dictSet, dictGet, h']
    · by_cases hp' : p.1 = k' <;> simp [dictSet, dictGet, hp, hp', h, h', ih]

theorem dictGet_dictDel_self {β : Type} (d : List (String × β)) (k : String) :
    dictGet (dictDel d k) k = none := by
  induction d with
  | nil => simp [dictDel, dictGet]
  | cons p rest ih =>
    by_cases h : p.1 = k <;> simp [dictDel, dictGet, h] at ih ⊢ <;> simpa [dictDel] using ih

theorem dictUpdate_nil {β : Type} (d : List (String × β)) : dictUpdate d [] = d := rfl

theorem dictUpdate_cons {β : Type} (d : List (String × β)) (k : String) (v : β)
    (rest : List (String × β)) :
    dictUpdate d ((k, v) :: rest) = dictUpdate (dictSet d k v) rest := rfl

theorem dictUpdate_single {β : Type} (d : List (String × β)) (k : String) (v : β) :
    dictUpdate d [(k, v)] = dictSet d k v := rfl

theorem dictGet_dictUpdate_not_mem {β : Type} {other : List (String × β)} {k : String}
    (h : k ∉ other.map Prod.fst) (d : List (String × β)) :
    dictGet (dictUpdate d other) k = dictGet d k := by
  induction other generalizing d with
  | nil => rfl
  | cons p rest ih =>
    simp only [List.map_cons, List.mem_cons, not_or] at h
    rw [show p = (p.1, p.2) from rfl, dictUpdate_cons, ih h.2]
    exact dictGet_dictSet_ne _ _ h.1

theorem dictGet_dictUpdate_mem {β : Type} {other : List (String × β)} {k : String} {v : β}
    (hnd : (other.map Prod.fst).Nodup) (hmem : (k, v) ∈ other) (d : List (String × β)) :
    dictGet (dictUpdate d other) k = some v := by
  induction other generalizing d with
  | nil => cases hmem
  | cons p rest ih =>
    simp only [List.map_cons, List.nodup_cons] at hnd
    rcases List.mem_cons.mp hmem with heq | hmem'
    · subst heq
      rw [dictUpdate_cons, dictGet_dictUpdate_not_mem hnd.1, dictGet_dictSet_self]
    · rw [show p = (p.1, p.2) from rfl, dictUpdate_cons]
      exact ih hnd.2 hmem' _

/-! Lemmas about the resolver's building blocks. -/

theorem logDefaults_fst (verbose : Nat) :
    (logDefaults verbose).1 =
      (if verbose ≥ 3 then LogLevel.TRACE
       else if verbose ≥ 1 then LogLevel.DEBUG else LogLevel.INFO) := by
  unfold logDefaults
  split_ifs <;> rfl

theorem logDefaults_snd (verbose : Nat) :
    (logDefaults verbose).2 =
      (if verbose ≥ 3 then LogLevel.TRACE else LogLevel.DEBUG) := by
  unfold logDefaults
  split_ifs <;> rfl

theorem resolveLog_file (d1 d2 : LogLevel) (log : Log) :
    (resolveLog d1 d2 log).file = log.file := by
  cases h : log.level <;> simp [resolveLog, h]

theorem resolveLog_format (d1 d2 : LogLevel) (log : Log) :
    (resolveLog d1 d2 log).format = log.format := by
  cases h : log.level <;> simp [resolveLog, h]

theorem resolveLog_level_isSome (d1 d2 : LogLevel) (log : Log) :
    (resolveLog d1 d2 log).level.isSome := by
  cases h : log.level <;> simp [resolveLog, h]

theorem resolveLog_of_level_some (d1 d2 : LogLevel) {log : Log} {lvl : LogLevel}
    (h : log.level = some lvl) : resolveLog d1 d2 log = log := by
  simp [resolveLog, h]

theorem set_log_defaults_getElem {logs : List Log} (verbose : Nat) {i : Nat}
    (h : i < logs.length) :
    (set_log_defaults logs verbose)[i]? =
      some (resolveLog (logDefaults verbose).1 (logDefaults verbose).2 logs[i]) := by
  unfold set_log_defaults
  dsimp only
  split
  · rw [List.getElem?_map, List.getElem?_eq_getElem h]
    rfl
  · rw [List.getElem?_append_left (by simpa using h), List.getElem?_map,
      List.getElem?_eq_getElem h]
    rfl

theorem set_log_defaults_level_isSome (logs : List Log) (verbose : Nat) :
    ∀ l ∈ set_log_defaults logs verbose, l.level.isSome := by
  intro l hl
  unfold set_log_defaults at hl
  split at hl
  · obtain ⟨x, _, rfl⟩ := List.mem_map.mp hl
    exact resolveLog_level_isSome _ _ _
  · rcases List.mem_append.mp hl with hm | hm
    · obtain ⟨x, _, rfl⟩ := List.mem_map.mp hm
      exact resolveLog_level_isSome _ _ _
    · simp only [List.mem_singleton] at hm
      subst hm
      rfl

theorem buildHandlers_isSome {logs : List Log}
    (h : ∀ l ∈ logs, l.level.isSome) : (buildHandlers logs).isSome := by
  induction logs with
  | nil => rfl
  | cons log rest ih =>
    obtain ⟨lvl, hlvl⟩ := Option.isSome_iff_exists.mp (h log (by simp))
    obtain ⟨hs, hhs⟩ :=
      Option.isSome_iff_exists.mp (ih (fun l hl => h l (List.mem_cons_of_mem _ hl)))
    simp [buildHandlers, buildHandler, hlvl, hhs]

/-! The claims. -/

/-- C1: for every verbosity and every sink list in which no sink has
destination `stdout` or `stderr`, `_set_log_defaults` appends exactly one
synthetic console sink — destination `stderr`, color format, at the
resolved default console level — while every input sink keeps its
position, destination and format; and for every sink list that does
contain an explicit `stdout` or `stderr` destination, no synthetic sink
is added (the output length equals the input length).  (Proved for all
`verbose : Nat`, which covers the claim's verbosities 0, 1, 2 and 3.) -/
theorem c1_synthetic_console_sink (logs : List Log) (verbose : Nat) :
    ((∀ l ∈ logs, l.file ≠ "stdout" ∧ l.file ≠ "stderr") →
      (set_log_defaults logs verbose).length = logs.length + 1 ∧
      (set_log_defaults logs verbose).getLast? =
        some ⟨"stderr", LogFormat.color,
          some (if verbose ≥ 3 then LogLevel.TRACE
                else if verbose ≥ 1 then LogLevel.DEBUG else LogLevel.INFO)⟩ ∧
      (∀ i, i < logs.length →
        ((set_log_defaults logs verbose)[i]?).map Log.file = (logs[i]?).map Log.file ∧
        ((set_log_defaults logs verbose)[i]?).map Log.format = (logs[i]?).map Log.format)) ∧
    ((∃ l ∈ logs, l.file = "stdout" ∨ l.file = "stderr") →
      (set_log_defaults logs verbose).length = logs.length) := by
  constructor
  · intro h
    have hany : (logs.any fun log => log.file == "stderr" || log.file == "stdout")
        = false := by
      rw [List.any_eq_false]
      intro l hl
      simp only [Bool.or_eq_true, beq_iff_eq]
      push_neg
      exact ⟨(h l hl).2, (h l hl).1⟩
    have heq : set_log_defaults logs verbose =
        logs.map (resolveLog (logDefaults verbose).1 (logDefaults verbose).2) ++
          [⟨"stderr", LogFormat.color, some (logDefaults verbose).1⟩] := by
      unfold set_log_defaults
      dsimp only
      rw [hany]
      simp [DEFAULT_CONSOLE_LOG]
    refine ⟨by rw [heq]; simp, ?_, ?_⟩
    · rw [heq, List.getLast?_append, logDefaults_fst]
      rfl
    · intro i hi
      rw [heq, List.getElem?_append_left (by simpa using hi), List.getElem?_map,
        List.getElem?_eq_getElem hi]
      constructor <;> simp [resolveLog_file, resolveLog_format]
  · intro h
    obtain ⟨l, hl, hcase⟩ := h
    have hany : (logs.any fun log => log.file == "stderr" || log.file == "stdout")
        = true := by
      rw [List.any_eq_true]
      exact ⟨l, hl, by rcases hcase with h' | h' <;> simp [h']⟩
    unfold set_log_defaults
    dsimp only
    rw [hany]
    simp

/-- C1 witness: at verbosity 0, a single pure-file sink list gains exactly
one synthetic `stderr` color sink at level INFO, while a list that already
names `stderr` keeps its length. -/
theorem c1_synthetic_console_sink_witness :
    ((set_log_defaults [⟨"app.log", LogFormat.json, none⟩] 0).length = 2 ∧
      (set_log_defaults [⟨"app.log", LogFormat.json, none⟩] 0).getLast? =
        some ⟨"stderr", LogFormat.color, some LogLevel.INFO⟩) ∧
    (set_log_defaults [⟨"stderr", LogFormat.color, none⟩] 0).length = 1 := by
  have h1 := (c1_synthetic_console_sink [⟨"app.log", LogFormat.json, none⟩] 0).1
    (by decide)
  have h2 := (c1_synthetic_console_sink [⟨"stderr", LogFormat.color, none⟩] 0).2
    ⟨⟨"stderr", LogFormat.color, none⟩, by decide, by decide⟩
  exact ⟨⟨h1.1, h1.2.1⟩, h2⟩

/-- C2: every input sink missing a level receives the default determined
by verbosity and destination kind: verbosity ≥ 3 gives TRACE for both
kinds; 1 ≤ verbosity < 3 gives DEBUG for both kinds; verbosity 0 gives
INFO for console destinations and DEBUG for others; a `stdout`/`stderr`
destination receives the console default, any other destination the file
default.  Destination and format are preserved. -/
theorem c2_default_levels (logs : List Log) (verbose : Nat) (i : Nat) (l : Log)
    (hi : logs[i]? = some l) (hl : l.level = none) :
    (set_log_defaults logs verbose)[i]? =
      some ⟨l.file, l.format,
        some (if l.file = "stdout" ∨ l.file = "stderr"
              then (if verbose ≥ 3 then LogLevel.TRACE
                    else if verbose ≥ 1 then LogLevel.DEBUG else LogLevel.INFO)
              else (if verbose ≥ 3 then LogLevel.TRACE
                    else if verbose ≥ 1 then LogLevel.DEBUG
                    else LogLevel.DEBUG))⟩ := by
  have hlen : i < logs.length := by
    by_contra hc
    push_neg at hc
    rw [List.getElem?_eq_none hc] at hi
    exact Option.noConfusion hi
  have hgl : logs[i] = l := by
    rw [List.getElem?_eq_getElem hlen] at hi
    exact Option.some.inj hi
  rw [set_log_defaults_getElem verbose hlen, hgl]
  simp only [resolveLog, hl, logDefaults_fst, logDefaults_snd]
  by_cases hc : l.file = "stdout" ∨ l.file = "stderr" <;> simp [hc]

/-- C2 witness: at verbosity 0 a level-less file sink resolves to DEBUG. -/
theorem c2_default_levels_witness :
    (set_log_defaults [⟨"app.log", LogFormat.json, none⟩] 0)[0]? =
      some ⟨"app.log", LogFormat.json, some LogLevel.DEBUG⟩ := by
  have h := c2_default_levels [⟨"app.log", LogFormat.json, none⟩] 0 0
    ⟨"app.log", LogFormat.json, none⟩ (by decide) (by decide)
  simpa using h

/-- C8: every sink in the resolver's output has its level set (so the
`assert log.level is not None` of `init_logging`, modelled as the
`buildHandlers` option, can never fail on resolver output), and every
input sink whose level was already set appears in the output at its
position, unchanged in all fields. -/
theorem c8_levels_always_set (logs : List Log) (verbose : Nat) :
    (∀ l ∈ set_log_defaults logs verbose, l.level.isSome) ∧
    (∀ (i : Nat) (l : Log), logs[i]? = some l → l.level.isSome →
      (set_log_defaults logs verbose)[i]? = some l) ∧
    (buildHandlers (set_log_defaults logs verbose)).isSome := by
  refine ⟨set_log_defaults_level_isSome logs verbose, ?_,
    buildHandlers_isSome (set_log_defaults_level_isSome logs verbose)⟩
  intro i l hi hl
  have hlen : i < logs.length := by
    by_contra hc
    push_neg at hc
    rw [List.getElem?_eq_none hc] at hi
    exact Option.noConfusion hi
  have hgl : logs[i] = l := by
    rw [List.getElem?_eq_getElem hlen] at hi
    exact Option.some.inj hi
  rw [set_log_defaults_getElem verbose hlen, hgl]
  obtain ⟨lvl, hlvl⟩ := Option.isSome_iff_exists.mp hl
  rw [resolveLog_of_level_some _ _ hlvl]

/-- C8 witness: a sink with an explicit level passes through unchanged and
all output levels are set. -/
theorem c8_levels_always_set_witness :
    (∀ l ∈ set_log_defaults [⟨"stderr", LogFormat.nocolor, some LogLevel.INFO⟩] 2,
      l.level.isSome) ∧
    (set_log_defaults [⟨"stderr", LogFormat.nocolor, some LogLevel.INFO⟩] 2)[0]? =
      some ⟨"stderr", LogFormat.nocolor, some LogLevel.INFO⟩ := by
  have h := c8_levels_always_set [⟨"stderr", LogFormat.nocolor, some LogLevel.INFO⟩] 2
  exact ⟨h.1, h.2.1 0 ⟨"stderr", LogFormat.nocolor, some LogLevel.INFO⟩
    (by decide) (by decide)⟩

/-- C9: the resolver's console test is case-sensitive while handler
classification is case-insensitive.  A sink with destination `STDERR` and
no level is treated as a file sink by `_set_log_defaults` — it gets the
default file level and a synthetic `stderr` console sink is appended —
yet the handler-building loop of `init_logging` classifies `STDERR` as a
console stream handler. -/
theorem c9_case_sensitive_console_test (verbose : Nat) (f : LogFormat) :
    set_log_defaults [⟨"STDERR", f, none⟩] verbose =
      [⟨"STDERR", f, some (if verbose ≥ 3 then LogLevel.TRACE else LogLevel.DEBUG)⟩,
       ⟨"stderr", LogFormat.color,
         some (if verbose ≥ 3 then LogLevel.TRACE
               else if verbose ≥ 1 then LogLevel.DEBUG else LogLevel.INFO)⟩] ∧
    ∀ lvl : LogLevel,
      buildHandler ⟨"STDERR", f, some lvl⟩ =
        some ⟨"STDERR", lvl, HandlerKind.stream, f⟩ := by
  constructor
  · have hany : (([⟨"STDERR", f, none⟩] : List Log).any
        fun log => log.file == "stderr" || log.file == "stdout") = false := by
      simp
    unfold set_log_defaults
    dsimp only
    rw [hany]
    simp [resolveLog, logDefaults_fst, logDefaults_snd, DEFAULT_CONSOLE_LOG]
  · intro lvl
    have hc : isConsoleFile "STDERR" = true := by decide
    simp [buildHandler, hc]

/-- C4: chaining two `bind_fargs` calls replaces rather than merges the
`fargs` binding: whatever the first mapping was, the resulting context's
`fargs` value is exactly the second mapping — in particular
`bind_fargs {a: 1}` then `bind_fargs {b: 2}` yields `fargs = {b: 2}` —
and within one call, a keyword argument overrides the same-named entry of
the provided mapping while leaving differently-named entries untouched. -/
theorem c4_bind_fargs_replaces (lg : BoundLogger Nat) :
    (∀ m1 m2 : List (String × Nat),
      dictGet (bind_fargs (bind_fargs lg (some m1) []) (some m2) []).context "fargs"
        = some (CtxVal.fargsMap m2)) ∧
    dictGet (bind_fargs (bind_fargs lg (some [("a", 1)]) []) (some [("b", 2)]) []).context
        "fargs" = some (CtxVal.fargsMap [("b", 2)]) ∧
    (∀ (m : List (String × Nat)) (k : String) (v : Nat),
      ∃ fm, dictGet (bind_fargs lg (some m) [(k, v)]).context "fargs"
          = some (CtxVal.fargsMap fm) ∧
        dictGet fm k = some v ∧
        ∀ k', k' ≠ k → dictGet fm k' = dictGet m k') := by
  refine ⟨?_, ?_, ?_⟩
  · intro m1 m2
    simp only [bind_fargs, structlogBind, dictUpdate_nil, dictUpdate_single]
    exact dictGet_dictSet_self _ _ _
  · simp only [bind_fargs, structlogBind, dictUpdate_nil, dictUpdate_single]
    exact dictGet_dictSet_self _ _ _
  · intro m k v
    refine ⟨dictSet m k v, ?_, dictGet_dictSet_self _ _ _,
      fun k' hk' => dictGet_dictSet_ne _ _ hk'⟩
    simp only [bind_fargs, structlogBind, dictUpdate_single]
    exact dictGet_dictSet_self _ _ _

/-- C4 witness: concrete replacement and keyword-override instances. -/
theorem c4_bind_fargs_replaces_witness :
    dictGet (bind_fargs (bind_fargs (⟨[]⟩ : BoundLogger Nat) (some [("a", 1)]) [])
        (some [("b", 2)]) []).context "fargs" = some (CtxVal.fargsMap [("b", 2)]) ∧
    ∃ fm, dictGet (bind_fargs (⟨[]⟩ : BoundLogger Nat) (some [("a", 1), ("b", 2)])
        [("b", 3)]).context "fargs" = some (CtxVal.fargsMap fm) ∧
      dictGet fm "b" = some 3 ∧ dictGet fm "a" = dictGet [("a", 1), ("b", 2)] "a" := by
  refine ⟨(c4_bind_fargs_replaces ⟨[]⟩).2.1, ?_⟩
  obtain ⟨fm, h1, h2, h3⟩ :=
    (c4_bind_fargs_replaces ⟨[]⟩).2.2 [("a", 1), ("b", 2)] "b" 3
  exact ⟨fm, h1, h2, h3 "a" (by decide)⟩

/-- C5: binding only restricted field names leaves the bound context of
the result equal to the original context; exactly one warning is emitted
per rejected key and none for other keys; and non-restricted keys passed
in the same call are still bound to their values. -/
theorem c5_restricted_bind {α : Type} (lg : BoundLogger α)
    (newValues : List (String × CtxVal α)) :
    ((∀ p ∈ newValues, p.1 ∈ RESTRICTED_KEYS) →
      (betterBind lg newValues).1.context = lg.context) ∧
    ((newValues.map Prod.fst).Nodup →
      ∀ k ∈ RESTRICTED_KEYS, k ∈ newValues.map Prod.fst →
        (betterBind lg newValues).2.count k = 1) ∧
    (∀ k, k ∉ RESTRICTED_KEYS → k ∉ (betterBind lg newValues).2) ∧
    ((newValues.map Prod.fst).Nodup →
      ∀ (k : String) (v : CtxVal α), (k, v) ∈ newValues → k ∉ RESTRICTED_KEYS →
        dictGet (betterBind lg newValues).1.context k = some v) := by
  refine ⟨?_, ?_, ?_, ?_⟩
  · intro h
    have hkept : newValues.filter (fun p => decide (p.1 ∉ RESTRICTED_KEYS)) = [] := by
      rw [List.filter_eq_nil_iff]
      intro p hp
      simp [h p hp]
    show (structlogBind lg _).context = lg.context
    rw [hkept]
    rfl
  · intro hnd k hkR hkmem
    show ((newValues.map Prod.fst).filter
      (fun k => decide (k ∈ RESTRICTED_KEYS))).count k = 1
    rw [List.count_filter (by simpa using hkR)]
    exact List.count_eq_one_of_mem hnd hkmem
  · intro k hk hkmem
    have hmem := (List.mem_filter.mp hkmem).2
    simp only [decide_eq_true_eq] at hmem
    exact hk hmem
  · intro hnd k v hkv hkR
    have hkept : (k, v) ∈ newValues.filter (fun p => decide (p.1 ∉ RESTRICTED_KEYS)) :=
      List.mem_filter.mpr ⟨hkv, by simpa using hkR⟩
    have hsub : ((newValues.filter (fun p => decide (p.1 ∉ RESTRICTED_KEYS))).map
        Prod.fst).Sublist (newValues.map Prod.fst) :=
      (List.filter_sublist _).map _
    exact dictGet_dictUpdate_mem (hsub.nodup hnd) hkept lg.context

/-- C5 witness: binding `pid` (restricted) alone leaves the context
untouched; binding `pid` together with `good` warns once about `pid`,
never about `good`, and still binds `good`. -/
theorem c5_restricted_bind_witness :
    (betterBind (⟨[("x", CtxVal.val 0)]⟩ : BoundLogger Nat)
      [("pid", CtxVal.val 1)]).1.context = [("x", CtxVal.val 0)] ∧
    (betterBind (⟨[("x", CtxVal.val 0)]⟩ : BoundLogger Nat)
      [("pid", CtxVal.val 1), ("good", CtxVal.val 2)]).2.count "pid" = 1 ∧
    "good" ∉ (betterBind (⟨[("x", CtxVal.val 0)]⟩ : BoundLogger Nat)
      [("pid", CtxVal.val 1), ("good", CtxVal.val 2)]).2 ∧
    dictGet (betterBind (⟨[("x", CtxVal.val 0)]⟩ : BoundLogger Nat)
      [("pid", CtxVal.val 1), ("good", CtxVal.val 2)]).1.context "good"
      = some (CtxVal.val 2) := by
  refine ⟨(c5_restricted_bind ⟨[("x", CtxVal.val 0)]⟩ [("pid", CtxVal.val 1)]).1
      (by decide), ?_, ?_, ?_⟩
  · exact (c5_restricted_bind ⟨[("x", CtxVal.val 0)]⟩
      [("pid", CtxVal.val 1), ("good", CtxVal.val 2)]).2.1 (by decide) "pid"
      (by decide) (by decide)
  · exact (c5_restricted_bind ⟨[("x", CtxVal.val 0)]⟩
      [("pid", CtxVal.val 1), ("good", CtxVal.val 2)]).2.2.1 "good" (by decide)
  · exact (c5_restricted_bind ⟨[("x", CtxVal.val 0)]⟩
      [("pid", CtxVal.val 1), ("good", CtxVal.val 2)]).2.2.2 (by decide) "good"
      (CtxVal.val 2) (by decide) (by decide)

/-- C6: at verbosity 0 the console processor chain (shared by the color
and nocolor formatters, which are both built over `console_processors`)
hands the renderer an event dict with no `fargs` key — whatever was bound
— and with its timestamp equal to the short local-time format only (the
`%H:%M:%S.%f` rendering with the last three characters dropped). -/
theorem c6_verbosity0_console (env : Env) (m : String) (d : EventDict) :
    dictGet (chain_processors (console_processors 0) env m d) "fargs" = none ∧
    dictGet (chain_processors (console_processors 0) env m d) "timestamp"
      = some (Value.str (env.nowMedium.dropRight 3)) := by
  have hch : chain_processors (console_processors 0) env m d =
      short_timestamper env m
        (remove_fargs_processor env m (add_log_level env m d)) := rfl
  rw [hch]
  simp only [short_timestamper, medium_timestamper, dictGet_dictSet_self]
  constructor
  · rw [dictGet_dictSet_ne _ _ (show ("fargs" : String) ≠ "timestamp" by decide),
      dictGet_dictSet_ne _ _ (show ("fargs" : String) ≠ "timestamp" by decide)]
    exact dictGet_dictDel_self _ _
  · trivial

/-- C10: for every verbosity strictly below 2 — verbosity 1 as well as
verbosity 0 — the console processor chain contains the fargs-removing
processor and no later processor re-adds the key, so a bound `fargs`
field never reaches the console renderer. -/
theorem c10_fargs_stripped_below_two (verbose : Nat) (h : verbose < 2)
    (env : Env) (m : String) (d : EventDict) :
    dictGet (chain_processors (console_processors verbose) env m d) "fargs" = none := by
  interval_cases verbose
  · have hch : chain_processors (console_processors 0) env m d =
        short_timestamper env m
          (remove_fargs_processor env m (add_log_level env m d)) := rfl
    rw [hch]
    simp only [short_timestamper, medium_timestamper, dictGet_dictSet_self]
    rw [dictGet_dictSet_ne _ _ (show ("fargs" : String) ≠ "timestamp" by decide),
      dictGet_dictSet_ne _ _ (show ("fargs" : String) ≠ "timestamp" by decide)]
    exact dictGet_dictDel_self _ _
  · have hch : chain_processors (console_processors 1) env m d =
        medium_timestamper env m (add_thread_processor env m (add_pid_processor env m
          (remove_fargs_processor env m (add_log_level env m d)))) := rfl
    rw [hch]
    simp only [medium_timestamper, add_thread_processor, add_pid_processor]
    rw [dictGet_dictSet_ne _ _ (show ("fargs" : String) ≠ "timestamp" by decide),
      dictGet_dictSet_ne _ _ (show ("fargs" : String) ≠ "thread" by decide),
      dictGet_dictSet_ne _ _ (show ("fargs" : String) ≠ "pid" by decide)]
    exact dictGet_dictDel_self _ _

/-- C10 witness: at verbosity 1 a bound `fargs` entry is absent from the
dict handed to the console renderer. -/
theorem c10_fargs_stripped_below_two_witness :
    1 < 2 ∧
    dictGet (chain_processors (console_processors 1)
      ⟨"12:00:00.000000", "2026-01-01T00:00:00Z", 41, "MainThread", none⟩
      "info" [("fargs", Value.str "x"), ("event", Value.str "hello")]) "fargs"
      = none :=
  ⟨by decide, c10_fargs_stripped_below_two 1 (by decide)
    ⟨"12:00:00.000000", "2026-01-01T00:00:00Z", 41, "MainThread", none⟩
    "info" [("fargs", Value.str "x"), ("event", Value.str "hello")]⟩

/-- C7: the call-site enrichment processor passes the event record through
unchanged (raising nothing) when the stack walk finds no qualifying frame,
or when frame info or the module cannot be resolved; only when frame,
frame info and module are all present does it add the `module`, `function`
and `lineno` keys. -/
theorem c7_caller_info_skip (env : Env) (m : String) (d : EventDict) :
    (env.frame = none → add_caller_info_processor env m d = d) ∧
    (∀ fr, env.frame = some fr → fr.frameinfo = none →
      add_caller_info_processor env m d = d) ∧
    (∀ fr, env.frame = some fr → fr.module = none →
      add_caller_info_processor env m d = d) ∧
    (∀ fr fi md, env.frame = some fr → fr.frameinfo = some fi → fr.module = some md →
      add_caller_info_processor env m d =
        dictSet (dictSet (dictSet d "module" (Value.str md.name))
          "function" (Value.str fi.function)) "lineno"
          (Value.str (toString fi.lineno))) := by
  refine ⟨?_, ?_, ?_, ?_⟩
  · intro h
    simp [add_caller_info_processor, h]
  · intro fr hfr hfi
    simp [add_caller_info_processor, hfr, hfi]
  · intro fr hfr hmd
    cases hfi : fr.frameinfo <;>
      simp [add_caller_info_processor, hfr, hfi, hmd]
  · intro fr fi md hfr hfi hmd
    simp [add_caller_info_processor, hfr, hfi, hmd]

/-- C7 witness: a failed walk leaves the record unchanged; a fully
resolved frame adds exactly the three call-site keys. -/
theorem c7_caller_info_skip_witness :
    add_caller_info_processor
      ⟨"12:00:00.000000", "2026-01-01T00:00:00Z", 41, "MainThread", none⟩
      "info" [("event", Value.str "hello")] = [("event", Value.str "hello")] ∧
    add_caller_info_processor
      ⟨"12:00:00.000000", "2026-01-01T00:00:00Z", 41, "MainThread",
        some ⟨some ⟨"main", 7⟩, some ⟨"app"⟩⟩⟩
      "info" [("event", Value.str "hello")] =
      dictSet (dictSet (dictSet [("event", Value.str "hello")]
        "module" (Value.str "app")) "function" (Value.str "main")) "lineno"
        (Value.str (toString 7)) := by
  constructor
  · exact (c7_caller_info_skip
      ⟨"12:00:00.000000", "2026-01-01T00:00:00Z", 41, "MainThread", none⟩
      "info" [("event", Value.str "hello")]).1 rfl
  · exact (c7_caller_info_skip
      ⟨"12:00:00.000000", "2026-01-01T00:00:00Z", 41, "MainThread",
        some ⟨some ⟨"main", 7⟩, some ⟨"app"⟩⟩⟩
      "info" [("event", Value.str "hello")]).2.2.2 ⟨some ⟨"main", 7⟩, some ⟨"app"⟩⟩
      ⟨"main", 7⟩ ⟨"app"⟩ rfl rfl rfl

/-- C3: the idempotence gate of `init_logging`: after a first call from
the fresh process state with some argument set, the state reports
structlog configured, a second call with the identical argument set
returns immediately with the state unchanged and no effects at all — so
handler setup happened exactly once across both calls and the
`"Logging to files."` informational line (emitted at most once by the
first call) is not emitted a second time. -/
theorem c3_idempotence (args : InitArgs) (s1 : LoggingState) (eff1 : List Effect)
    (h : init_logging ⟨none, false⟩ args = some (s1, eff1)) :
    s1.structlogConfigured = true ∧
    init_logging s1 args = some (s1, []) ∧
    eff1.countP Effect.isHandlerSetup = 1 ∧
    eff1.countP Effect.isInfoLogFiles ≤ 1 := by
  obtain ⟨hs, hhs⟩ := Option.isSome_iff_exists.mp
    (buildHandlers_isSome (set_log_defaults_level_isSome args.logs args.verbose))
  unfold init_logging at h
  rw [if_neg (by simp)] at h
  simp only [hhs] at h
  have h2 := Option.some.inj h
  injection h2 with ha hb
  subst ha
  subst hb
  refine ⟨rfl, by simp [init_logging], ?_, ?_⟩ <;>
    cases hfiles : realLogfiles (set_log_defaults args.logs args.verbose) <;>
      simp [hfiles, Effect.isHandlerSetup, Effect.isInfoLogFiles]

/-- C3 witness: a concrete second call with identical arguments is a
no-op, and the first call's effect list contains exactly one handler
setup. -/
theorem c3_idempotence_witness :
    init_logging ⟨some ⟨[⟨"app.log", LogFormat.json, none⟩], 1⟩, true⟩
        ⟨[⟨"app.log", LogFormat.json, none⟩], 1⟩ =
      some (⟨some ⟨[⟨"app.log", LogFormat.json, none⟩], 1⟩, true⟩, []) ∧
    ([Effect.handlerSetup
        [⟨"app.log", LogLevel.DEBUG, HandlerKind.watchedFile, LogFormat.json⟩,
         ⟨"stderr", LogLevel.DEBUG, HandlerKind.stream, LogFormat.color⟩],
      Effect.infoLogFiles ["app.log"]].countP Effect.isHandlerSetup) = 1 := by
  have h := c3_idempotence ⟨[⟨"app.log", LogFormat.json, none⟩], 1⟩
    ⟨some ⟨[⟨"app.log", LogFormat.json, none⟩], 1⟩, true⟩
    [Effect.handlerSetup
        [⟨"app.log", LogLevel.DEBUG, HandlerKind.watchedFile, LogFormat.json⟩,
         ⟨"stderr", LogLevel.DEBUG, HandlerKind.stream, LogFormat.color⟩],
      Effect.infoLogFiles ["app.log"]] (by decide)
  exact ⟨h.2.1, h.2.2.1⟩

end Logutils
